import Mathlib

/-!
Verification of the request-submission core of the Ambu-3M benefits-request
application (`src/components/RequestForm.tsx`): the reimbursement calculator,
the dependent-list editor, the sequential file-upload gateway and the
submission workflow, embedded shallowly in Lean 4.

Numbers are modelled as rationals; the remote storage collaborator (the
supabase client wrapper, which lives outside `src/components`) is modelled
explicitly from the spec, with an `UploadState` recording both the stored
keys and the ordered trace of attempted network calls.
-/

namespace Ambu3M

/-! ## Reimbursement calculator (`calculateReimbursement`) -/

def BASE_SALARY : ℚ := 2018.36

def SALARY_PERCENTAGE : ℚ := 9 / 10

/-- `calculateReimbursement` from `RequestForm.tsx` lines 68-80:
`if (salary <= 0) return 0;` then compare `salary * 0.9` with the floor. -/
def calculateReimbursement (salary : ℚ) : ℚ :=
  if salary ≤ 0 then 0
  else
    let maxReimbursable := salary * SALARY_PERCENTAGE
    if maxReimbursable ≤ BASE_SALARY then BASE_SALARY
    else maxReimbursable

/-- The floor/cap comparison of `calculateReimbursement` without the
`salary <= 0` short-circuit (lines 71-79), used to state what the general
formula alone would return. -/
def reimbursementFormula (salary : ℚ) : ℚ :=
  let maxReimbursable := salary * SALARY_PERCENTAGE
  if maxReimbursable ≤ BASE_SALARY then BASE_SALARY
  else maxReimbursable

/-! ## Files and the upload gateway (`uploadFiles`) -/

/-- A browser `File` as `uploadFiles` consumes it: a name and a byte size. -/
structure File where
  name : String
  size : ℕ
deriving DecidableEq, Repr

/-- The 50 MiB per-file ceiling: `50 * 1024 * 1024` (line 117). -/
def MAX_FILE_SIZE : ℕ := 50 * 1024 * 1024

/-- Outcome of the transport for one upload call: healthy, a transport
error with message, or a degenerate success that carries no path (the
source guards against `data?.path` being absent, line 139-144). -/
inductive NetOutcome where
  | ok
  | fail (msg : String)
  | okNoPath
deriving DecidableEq, Repr

/-- The `{ data, error }` shape the storage client returns. -/
structure StorageResp where
  path : Option String
  error : Option String
deriving DecidableEq, Repr

/-- Remote-storage state: the stored `(key, file)` entries plus the ordered
trace of keys for which a network upload call was attempted. -/
structure UploadState where
  storage : List (String × File)
  calls : List String
deriving DecidableEq, Repr

/-- Modelled from the spec: the remote storage collaborator
(`supabase.storage.from('request-attachments').upload(key, file,
{ upsert: false })`, whose client wrapper is not under `src/components`).
It records the network call, reports a transport fault when one occurs,
rejects an already-existing key when `upsert` is `false` instead of
overwriting, and otherwise stores the file and returns its path. -/
def storageUpload (beh : String → File → NetOutcome) (st : UploadState)
    (key : String) (f : File) (upsert : Bool) : UploadState × StorageResp :=
  let st1 : UploadState := { st with calls := st.calls ++ [key] }
  match beh key f with
  | .fail msg => (st1, ⟨none, some msg⟩)
  | .okNoPath => (st1, ⟨none, none⟩)
  | .ok =>
    if !upsert && st.storage.any (fun e => e.1 == key) then
      (st1, ⟨none, some "The resource already exists"⟩)
    else
      ({ st1 with storage := (key, f) :: st1.storage }, ⟨some key, none⟩)

/-- The storage key built at line 123: `${profile.id}/${timestamp}-${file.name}`. -/
def fileKey (ownerId : String) (timestamp : ℕ) (f : File) : String :=
  ownerId ++ "/" ++ toString timestamp ++ "-" ++ f.name

/-- The `for (const file of files)` loop of `uploadFiles` (lines 113-145):
size check, key construction, upload with `upsert: false`, `error` check,
then `data?.path` check; `ts i` is the `Date.now()` value observed for the
file at position `i`. -/
def uploadFilesLoop (beh : String → File → NetOutcome) (pid : String)
    (ts : ℕ → ℕ) : List File → ℕ → UploadState → List String →
    UploadState × Except String (List String)
  | [], _, st, acc => (st, .ok acc)
  | f :: rest, i, st, acc =>
    if MAX_FILE_SIZE < f.size then
      (st, .error ("Arquivo " ++ f.name ++ " excede o limite de 50MB"))
    else
      let key := fileKey pid (ts i) f
      let out := storageUpload beh st key f false
      match out.2.error with
      | some msg =>
        (out.1, .error ("Erro ao fazer upload do arquivo " ++ f.name ++ ": " ++ msg))
      | none =>
        match out.2.path with
        | some path => uploadFilesLoop beh pid ts rest (i + 1) out.1 (acc ++ [path])
        | none =>
          (out.1, .error ("Upload não retornou um caminho válido para " ++ f.name))

/-- `uploadFiles` (lines 107-153): `if (!profile?.id || files.length === 0)
return [];` then the sequential loop; the surrounding try/catch only
rethrows. `profile` holds the profile id when a profile is present; an
empty id is falsy in the source, hence the explicit `pid = ""` case. -/
def uploadFiles (beh : String → File → NetOutcome) (profile : Option String)
    (ts : ℕ → ℕ) (files : List File) (st : UploadState) :
    UploadState × Except String (List String) :=
  match profile with
  | none => (st, .ok [])
  | some pid =>
    if pid = "" ∨ files.length = 0 then (st, .ok [])
    else uploadFilesLoop beh pid ts files 0 st []

/-- One-step success test for the file at key `key` against storage
contents `storage`: within the size ceiling, healthy transport, and no
key collision. -/
def stepOk (beh : String → File → NetOutcome) (storage : List (String × File))
    (key : String) (f : File) : Bool :=
  decide (f.size ≤ MAX_FILE_SIZE) &&
  decide (beh key f = NetOutcome.ok) &&
  !(storage.any (fun e => e.1 == key))

/-- All files in the list succeed, threading the storage contents the loop
would build. -/
def allOk (beh : String → File → NetOutcome) (pid : String) (ts : ℕ → ℕ) :
    List File → ℕ → List (String × File) → Bool
  | [], _, _ => true
  | f :: rest, i, storage =>
    stepOk beh storage (fileKey pid (ts i) f) f &&
    allOk beh pid ts rest (i + 1) ((fileKey pid (ts i) f, f) :: storage)

/-- The storage keys the loop builds for the files starting at position `i`. -/
def keysFrom (pid : String) (ts : ℕ → ℕ) : List File → ℕ → List String
  | [], _ => []
  | f :: rest, i => fileKey pid (ts i) f :: keysFrom pid ts rest (i + 1)

/-- The storage contents after successfully storing the given files
starting at position `i`. -/
def insertKeys (pid : String) (ts : ℕ → ℕ) :
    List File → ℕ → List (String × File) → List (String × File)
  | [], _, storage => storage
  | f :: rest, i, storage =>
    insertKeys pid ts rest (i + 1) ((fileKey pid (ts i) f, f) :: storage)

/-! ## Dependent list editor (`updateDependent`) -/

/-- The two fields of a dependent (`keyof Dependent` in the source). -/
inductive DepField where
  | name
  | relationship
deriving DecidableEq, Repr

/-- A dependent object as JavaScript sees it: each property may be absent
(absent properties arise from spreading `undefined`). -/
structure JsDep where
  name : Option String
  relationship : Option String
deriving DecidableEq, Repr

/-- `{ ...d, [field]: value }` on an object `d`. -/
def setField (d : JsDep) : DepField → String → JsDep
  | .name, v => { d with name := some v }
  | .relationship, v => { d with relationship := some v }

/-- Spreading a possibly-`undefined` array cell: `{ ...undefined }` is `{}`. -/
def spreadCell : Option JsDep → JsDep
  | some d => d
  | none => ⟨none, none⟩

/-- `updateDependent` from `RequestForm.tsx` lines 92-96 with JavaScript
array semantics: `updated[index] = { ...updated[index], [field]: value }`
replaces the cell when `index` is in bounds, and otherwise EXTENDS the
array to length `index + 1`, filling the skipped positions with holes
(`undefined` cells, modelled as `none`). -/
def updateDependent (dependents : List (Option JsDep)) (index : ℕ)
    (field : DepField) (value : String) : List (Option JsDep) :=
  if h : index < dependents.length then
    dependents.set index (some (setField (spreadCell (dependents.get ⟨index, h⟩)) field value))
  else
    dependents ++ List.replicate (index - dependents.length) none
      ++ [some (setField (spreadCell none) field value)]

/-! ## Submission workflow (`onSubmit` behind `form.handleSubmit`) -/

/-- A dependent record as submitted (both fields always present in the
dense state array built by `addDependent`). -/
structure Dependent where
  name : String
  relationship : String
deriving DecidableEq, Repr

/-- An invoice entry: optional metadata plus an optional raw file handle. -/
structure Invoice where
  description : String
  file : Option File
deriving DecidableEq, Repr

/-- The validated form values (`FormData`), numbers as rationals. -/
structure FormData where
  cpf : String
  amount : ℚ
  polo : String
  salary : Option ℚ
deriving DecidableEq, Repr

/-- `dependentSchema` (lines 21-24): name of length at least 2,
relationship non-empty. -/
def dependentSchemaCheck (d : Dependent) : Bool :=
  decide (2 ≤ d.name.length) && decide (1 ≤ d.relationship.length)

/-- `formSchema` (lines 27-32): cpf of length at least 11 matching eleven
digits, amount at least 0.01, polo non-empty, optional nonnegative salary.
Dependents are NOT part of this schema. -/
def formSchemaCheck (v : FormData) : Bool :=
  decide (11 ≤ v.cpf.length) &&
  (decide (v.cpf.length = 11) && v.cpf.toList.all (fun c => c.isDigit)) &&
  decide ((1 : ℚ) / 100 ≤ v.amount) &&
  decide (1 ≤ v.polo.length) &&
  (match v.salary with | none => true | some s => decide (0 ≤ s))

/-- The payload handed to the `createRequest` collaborator (lines 169-176). -/
structure CreatePayload where
  type : String
  amount : ℚ
  polo : String
  cpf : String
  invoices : List Invoice
  dependents : List Dependent
deriving DecidableEq, Repr

/-- Trace of the remote calls a submission performs: the `createRequest`
payloads and the `uploadInvoices (requestId, files)` calls, in order. -/
structure SubmitTrace where
  created : List CreatePayload
  uploaded : List (String × List File)
deriving DecidableEq, Repr

/-- Terminal state of one submission attempt. -/
inductive SubmitResult where
  | validationErrors
  | errored (title desc : String)
  | success
deriving DecidableEq, Repr

/-- `onSubmit` (lines 155-207): missing `profile?.id` short-circuits to a
destructive toast; otherwise `createRequest` is called with the payload
(dependents included, unvalidated), then files carried by invoices are
uploaded via `uploadInvoices` when there is at least one and the creation
returned an id; any thrown error becomes the generic failure toast. -/
def onSubmit (profile : Option String)
    (createRequest : CreatePayload → Except String (Option String))
    (uploadInvoices : String → List File → Except String Unit)
    (invoices : List Invoice) (dependents : List Dependent)
    (values : FormData) : SubmitTrace × SubmitResult :=
  match profile with
  | none => (⟨[], []⟩, .errored "Erro" "Usuário não encontrado")
  | some pid =>
    if pid = "" then (⟨[], []⟩, .errored "Erro" "Usuário não encontrado")
    else
      let payload : CreatePayload :=
        ⟨"outros", values.amount, values.polo, values.cpf, invoices, dependents⟩
      match createRequest payload with
      | .error _ =>
        (⟨[payload], []⟩, .errored "Erro" "Erro ao criar solicitação. Tente novamente.")
      | .ok createdId =>
        let filesToUpload :=
          (invoices.filter (fun inv => inv.file.isSome)).filterMap (fun inv => inv.file)
        match createdId with
        | some cid =>
          if 0 < filesToUpload.length ∧ cid ≠ "" then
            match uploadInvoices cid filesToUpload with
            | .error _ =>
              (⟨[payload], [(cid, filesToUpload)]⟩,
               .errored "Erro" "Erro ao criar solicitação. Tente novamente.")
            | .ok _ => (⟨[payload], [(cid, filesToUpload)]⟩, .success)
          else (⟨[payload], []⟩, .success)
        | none => (⟨[payload], []⟩, .success)

/-- `form.handleSubmit(onSubmit)` (line 222): `onSubmit` runs only when
the form values pass `formSchema`; otherwise field errors are shown and
no remote call is made. -/
def handleSubmit (profile : Option String)
    (createRequest : CreatePayload → Except String (Option String))
    (uploadInvoices : String → List File → Except String Unit)
    (invoices : List Invoice) (dependents : List Dependent)
    (values : FormData) : SubmitTrace × SubmitResult :=
  if formSchemaCheck values then
    onSubmit profile createRequest uploadInvoices invoices dependents values
  else (⟨[], []⟩, .validationErrors)

/-! ## Theorems -/

/-- C1: for every salary strictly greater than 0, `calculateReimbursement`
returns the 2018.36 floor when `salary * 0.9 ≤ 2018.36` and `salary * 0.9`
when `salary * 0.9 > 2018.36`. -/
theorem calculateReimbursement_piecewise (salary : ℚ) (h : 0 < salary) :
    (salary * (9 / 10 : ℚ) ≤ 2018.36 → calculateReimbursement salary = 2018.36) ∧
    (2018.36 < salary * (9 / 10 : ℚ) → calculateReimbursement salary = salary * (9 / 10 : ℚ)) := by
  have h0 : ¬ salary ≤ 0 := not_le.mpr h
  constructor
  · intro hc
    simp [calculateReimbursement, SALARY_PERCENTAGE, BASE_SALARY, h0, hc]
  · intro hc
    simp [calculateReimbursement, SALARY_PERCENTAGE, BASE_SALARY, h0, not_le.mpr hc]

/-- Witness for C1 at salary 3000 (the cap branch) with the floor branch
vacuous there. -/
theorem calculateReimbursement_piecewise_witness :
    0 < (3000 : ℚ) ∧
    (((3000 : ℚ) * (9 / 10 : ℚ) ≤ 2018.36 → calculateReimbursement 3000 = 2018.36) ∧
     (2018.36 < (3000 : ℚ) * (9 / 10 : ℚ) →
       calculateReimbursement 3000 = 3000 * (9 / 10 : ℚ))) :=
  ⟨by norm_num, calculateReimbursement_piecewise 3000 (by norm_num)⟩

/-- C9: every salary at most 0 yields 0, via the explicit `salary <= 0`
short-circuit; the floor/cap comparison alone would instead return the
2018.36 floor on such a salary. -/
theorem calculateReimbursement_nonpos_zero (salary : ℚ) (h : salary ≤ 0) :
    calculateReimbursement salary = 0 ∧ reimbursementFormula salary = BASE_SALARY := by
  constructor
  · simp [calculateReimbursement, h]
  · have hle : salary * SALARY_PERCENTAGE ≤ BASE_SALARY := by
      unfold SALARY_PERCENTAGE BASE_SALARY
      nlinarith
    simp [reimbursementFormula, hle]

/-- Witness for C9 at salary 0. -/
theorem calculateReimbursement_nonpos_zero_witness :
    (0 : ℚ) ≤ 0 ∧
    (calculateReimbursement 0 = 0 ∧ reimbursementFormula 0 = BASE_SALARY) :=
  ⟨le_refl 0, calculateReimbursement_nonpos_zero 0 (le_refl 0)⟩

/-- C4 counterexample: index 0 is out of bounds for the empty dependent
list, yet `updateDependent` returns a one-element list, not the original
empty list — JavaScript index assignment extends the array. -/
theorem updateDependent_oob_not_noop_counterexample :
    ([] : List (Option JsDep)).length ≤ 0 ∧
    updateDependent [] 0 DepField.name "Maria" ≠ [] := by
  constructor
  · decide
  · decide

/-- C4 amended: for an out-of-bounds index, `updateDependent` extends the
list to length `index + 1`, filling the skipped positions with holes and
placing at `index` a record carrying only the updated field. -/
theorem updateDependent_oob_extends (dependents : List (Option JsDep)) (index : ℕ)
    (field : DepField) (value : String) (h : dependents.length ≤ index) :
    updateDependent dependents index field value =
      dependents ++ List.replicate (index - dependents.length) none ++
        [some (setField ⟨none, none⟩ field value)] ∧
    (updateDependent dependents index field value).length = index + 1 := by
  have h' : ¬ index < dependents.length := not_lt.mpr h
  refine ⟨by simp [updateDependent, h', spreadCell], ?_⟩
  simp [updateDependent, h', spreadCell]
  omega

/-- Witness for the amended C4: updating index 1 of the empty list yields
a hole followed by the single-field record. -/
theorem updateDependent_oob_extends_witness :
    ([] : List (Option JsDep)).length ≤ 1 ∧
    (updateDependent [] 1 DepField.name "Maria" =
        [] ++ List.replicate (1 - ([] : List (Option JsDep)).length) none ++
          [some (setField ⟨none, none⟩ DepField.name "Maria")] ∧
     (updateDependent [] 1 DepField.name "Maria").length = 1 + 1) :=
  ⟨by decide, updateDependent_oob_extends [] 1 DepField.name "Maria" (by decide)⟩

/-- C3 (divergence witness): the dependent `{name: "Maria Silva",
relationship: ""}` fails `dependentSchema`, yet a form whose own fields
pass `formSchema` is submitted with it and the remote `createRequest`
call IS made carrying that dependent — `dependentSchema` is never wired
into the submission validation. -/
theorem submission_accepts_empty_relationship :
    dependentSchemaCheck ⟨"Maria Silva", ""⟩ = false ∧
    formSchemaCheck ⟨"12345678901", 500, "3M Sumaré", some 1500⟩ = true ∧
    handleSubmit (some "owner-1") (fun _ => .ok (some "req-1")) (fun _ _ => .ok ())
        [] [⟨"Maria Silva", ""⟩] ⟨"12345678901", 500, "3M Sumaré", some 1500⟩ =
      (⟨[⟨"outros", 500, "3M Sumaré", "12345678901", [], [⟨"Maria Silva", ""⟩]⟩], []⟩,
       SubmitResult.success) := by
  have hform : formSchemaCheck ⟨"12345678901", 500, "3M Sumaré", some 1500⟩ = true := by
    simp only [formSchemaCheck, Bool.and_eq_true, decide_eq_true_eq]
    repeat' apply And.intro
    all_goals first | decide | norm_num
  refine ⟨rfl, hform, ?_⟩
  unfold handleSubmit
  rw [hform]
  rfl

/-- C6: with no requester profile id, `onSubmit` goes straight to the
missing-identity error; the call trace is empty, so neither the
request-creation call nor any upload is attempted. -/
theorem onSubmit_missing_identity_errors
    (createRequest : CreatePayload → Except String (Option String))
    (uploadInvoices : String → List File → Except String Unit)
    (invoices : List Invoice) (dependents : List Dependent) (values : FormData) :
    onSubmit none createRequest uploadInvoices invoices dependents values =
      (⟨[], []⟩, .errored "Erro" "Usuário não encontrado") := rfl

/-- C8: an empty file list makes `uploadFiles` return an empty path list
with no error and an unchanged upload state, hence no network call. -/
theorem uploadFiles_empty_list (beh : String → File → NetOutcome)
    (profile : Option String) (ts : ℕ → ℕ) (st : UploadState) :
    uploadFiles beh profile ts [] st = (st, .ok []) := by
  cases profile <;> simp [uploadFiles]

/-- C10: with no owner profile id, `uploadFiles` silently returns an empty
path list for a non-empty file list, leaving the upload state untouched:
the queued files are dropped without any error or upload attempt. -/
theorem uploadFiles_missing_owner_silent (beh : String → File → NetOutcome)
    (ts : ℕ → ℕ) (files : List File) (st : UploadState) (h : files ≠ []) :
    uploadFiles beh none ts files st = (st, .ok []) := rfl

/-- Witness for C10 on a one-file list. -/
theorem uploadFiles_missing_owner_silent_witness :
    ([⟨"a.pdf", 10⟩] : List File) ≠ [] ∧
    uploadFiles (fun _ _ => .ok) none (fun i => i) [⟨"a.pdf", 10⟩] ⟨[], []⟩ =
      (⟨[], []⟩, .ok []) :=
  ⟨by decide,
   uploadFiles_missing_owner_silent (fun _ _ => .ok) (fun i => i) [⟨"a.pdf", 10⟩]
     ⟨[], []⟩ (by decide)⟩

/-- One successful loop step: within the size ceiling, healthy transport
and no key collision, the loop stores the file, records the call, pushes
the path and recurses. -/
theorem uploadFilesLoop_cons_ok (beh : String → File → NetOutcome) (pid : String)
    (ts : ℕ → ℕ) (f : File) (rest : List File) (i : ℕ) (st : UploadState)
    (acc : List String)
    (hsize : f.size ≤ MAX_FILE_SIZE)
    (hbeh : beh (fileKey pid (ts i) f) f = NetOutcome.ok)
    (hany : st.storage.any (fun e => e.1 == fileKey pid (ts i) f) = false) :
    uploadFilesLoop beh pid ts (f :: rest) i st acc =
      uploadFilesLoop beh pid ts rest (i + 1)
        ⟨(fileKey pid (ts i) f, f) :: st.storage, st.calls ++ [fileKey pid (ts i) f]⟩
        (acc ++ [fileKey pid (ts i) f]) := by
  rw [uploadFilesLoop]
  rw [if_neg (by omega : ¬ MAX_FILE_SIZE < f.size)]
  simp only [storageUpload, hbeh, hany, Bool.not_false, Bool.true_and, Bool.and_false,
    if_false, Bool.false_eq_true]

/-- Running the loop over a prefix of files that all succeed stores their
keys, records their network calls in order, and accumulates their paths in
order, then continues with the remaining files. -/
theorem uploadFilesLoop_goods (beh : String → File → NetOutcome) (pid : String)
    (ts : ℕ → ℕ) (goods : List File) :
    ∀ (rest : List File) (i : ℕ) (st : UploadState) (acc : List String),
      allOk beh pid ts goods i st.storage = true →
      uploadFilesLoop beh pid ts (goods ++ rest) i st acc =
        uploadFilesLoop beh pid ts rest (i + goods.length)
          ⟨insertKeys pid ts goods i st.storage, st.calls ++ keysFrom pid ts goods i⟩
          (acc ++ keysFrom pid ts goods i) := by
  induction goods with
  | nil =>
    intro rest i st acc _
    simp [insertKeys, keysFrom]
  | cons f gs ih =>
    intro rest i st acc hok
    simp only [allOk, stepOk, Bool.and_eq_true, decide_eq_true_eq,
      Bool.not_eq_true', List.cons_append] at hok
    obtain ⟨⟨⟨hsize, hbeh⟩, hany⟩, hrest⟩ := hok
    rw [List.cons_append]
    rw [uploadFilesLoop_cons_ok beh pid ts f (gs ++ rest) i st acc hsize hbeh hany]
    rw [ih rest (i + 1) ⟨(fileKey pid (ts i) f, f) :: st.storage,
      st.calls ++ [fileKey pid (ts i) f]⟩ (acc ++ [fileKey pid (ts i) f]) hrest]
    simp only [insertKeys, keysFrom, List.length_cons, List.append_assoc,
      List.singleton_append]
    congr 1
    omega

/-- `insertKeys` preserves members of the initial storage. -/
theorem mem_insertKeys (pid : String) (ts : ℕ → ℕ) (files : List File) :
    ∀ (i : ℕ) (storage : List (String × File)) (x : String × File),
      x ∈ storage → x ∈ insertKeys pid ts files i storage := by
  induction files with
  | nil =>
    intro i storage x hx
    simpa [insertKeys] using hx
  | cons f gs ih =>
    intro i storage x hx
    rw [insertKeys]
    exact ih (i + 1) _ x (List.mem_cons_of_mem _ hx)

/-- Every key of a stored prefix occurs among the keys of the resulting
storage contents. -/
theorem keysFrom_mem_insertKeys (pid : String) (ts : ℕ → ℕ) (files : List File) :
    ∀ (i : ℕ) (storage : List (String × File)) (k : String),
      k ∈ keysFrom pid ts files i →
      k ∈ (insertKeys pid ts files i storage).map Prod.fst := by
  induction files with
  | nil =>
    intro i storage k hk
    simp [keysFrom] at hk
  | cons f gs ih =>
    intro i storage k hk
    rw [keysFrom] at hk
    rw [insertKeys]
    rcases List.mem_cons.mp hk with h | h
    · subst h
      exact List.mem_map.mpr
        ⟨(fileKey pid (ts i) f, f),
         mem_insertKeys pid ts gs (i + 1) _ _ (List.mem_cons_self _ _), rfl⟩
    · exact ih (i + 1) _ k h

/-- The path list a successful run returns matches the input files
pointwise: position `i` maps to `fileKey pid (ts i) (files[i])`. -/
theorem keysFrom_get? (pid : String) (ts : ℕ → ℕ) (files : List File) :
    ∀ (j i : ℕ),
      (keysFrom pid ts files j).get? i =
        (files.get? i).map (fun f => fileKey pid (ts (j + i)) f) := by
  induction files with
  | nil => intro j i; simp [keysFrom]
  | cons f gs ih =>
    intro j i
    cases i with
    | zero => simp [keysFrom]
    | succ n =>
      rw [keysFrom]
      simp only [List.get?_cons_succ]
      rw [ih (j + 1) n]
      have hjn : j + 1 + n = j + (n + 1) := by omega
      rw [hjn]

/-- Unfolding `uploadFiles` past its guard when an owner id is present and
the file list is non-empty. -/
theorem uploadFiles_some (beh : String → File → NetOutcome) (pid : String)
    (ts : ℕ → ℕ) (files : List File) (st : UploadState)
    (hpid : pid ≠ "") (hne : files ≠ []) :
    uploadFiles beh (some pid) ts files st = uploadFilesLoop beh pid ts files 0 st [] := by
  simp [uploadFiles, hpid, List.length_eq_zero, hne]

/-- C7: on a run where every file succeeds, `uploadFiles` returns the
storage paths in input order, the path at position `i` being the key
`{ownerId}/{timestamp_i}-{fileName_i}`; and an upload against an existing
key is rejected with an error instead of overwriting (the storage is left
unchanged). -/
theorem uploadFiles_success_ordered_paths (beh : String → File → NetOutcome)
    (pid : String) (ts : ℕ → ℕ) (files : List File) (st : UploadState)
    (hpid : pid ≠ "") (hok : allOk beh pid ts files 0 st.storage = true) :
    uploadFiles beh (some pid) ts files st =
      (⟨insertKeys pid ts files 0 st.storage, st.calls ++ keysFrom pid ts files 0⟩,
       .ok (keysFrom pid ts files 0)) ∧
    (∀ i, (keysFrom pid ts files 0).get? i =
        (files.get? i).map (fun f => fileKey pid (ts i) f)) ∧
    (∀ (st2 : UploadState) (key : String) (f : File),
      beh key f = NetOutcome.ok →
      (st2.storage.any fun e => e.1 == key) = true →
      (storageUpload beh st2 key f false).2.error = some "The resource already exists" ∧
      (storageUpload beh st2 key f false).1.storage = st2.storage) := by
  refine ⟨?_, ?_, ?_⟩
  · by_cases hfe : files = []
    · subst hfe
      simp [uploadFiles, keysFrom, insertKeys]
    · rw [uploadFiles_some beh pid ts files st hpid hfe]
      have hrun := uploadFilesLoop_goods beh pid ts files [] 0 st [] hok
      rw [List.append_nil] at hrun
      rw [hrun, uploadFilesLoop]
      simp
  · intro i
    simpa using keysFrom_get? pid ts files 0 i
  · intro st2 key f hbeh hany
    constructor <;> simp [storageUpload, hbeh, hany]

/-- Witness for C7: two small files upload under owner `u` with per-file
timestamps 0 and 1, yielding the two keyed paths in order. -/
theorem uploadFiles_success_ordered_paths_witness :
    (("u" : String) ≠ "" ∧
     allOk (fun _ _ => .ok) "u" (fun i => i) [⟨"a.pdf", 1⟩, ⟨"b.pdf", 2⟩] 0
       (⟨[], []⟩ : UploadState).storage = true) ∧
    (uploadFiles (fun _ _ => .ok) (some "u") (fun i => i) [⟨"a.pdf", 1⟩, ⟨"b.pdf", 2⟩]
        ⟨[], []⟩ =
      (⟨insertKeys "u" (fun i => i) [⟨"a.pdf", 1⟩, ⟨"b.pdf", 2⟩] 0
          (⟨[], []⟩ : UploadState).storage,
        (⟨[], []⟩ : UploadState).calls ++
          keysFrom "u" (fun i => i) [⟨"a.pdf", 1⟩, ⟨"b.pdf", 2⟩] 0⟩,
       .ok (keysFrom "u" (fun i => i) [⟨"a.pdf", 1⟩, ⟨"b.pdf", 2⟩] 0)) ∧
     (∀ i, (keysFrom "u" (fun i => i) [⟨"a.pdf", 1⟩, ⟨"b.pdf", 2⟩] 0).get? i =
        (([⟨"a.pdf", 1⟩, ⟨"b.pdf", 2⟩] : List File).get? i).map
          (fun f => fileKey "u" ((fun i => i) i) f)) ∧
     (∀ (st2 : UploadState) (key : String) (f : File),
       (fun _ _ => NetOutcome.ok) key f = NetOutcome.ok →
       (st2.storage.any fun e => e.1 == key) = true →
       (storageUpload (fun _ _ => .ok) st2 key f false).2.error =
         some "The resource already exists" ∧
       (storageUpload (fun _ _ => .ok) st2 key f false).1.storage = st2.storage)) :=
  ⟨⟨by decide, by decide⟩,
   uploadFiles_success_ordered_paths (fun _ _ => .ok) "u" (fun i => i)
     [⟨"a.pdf", 1⟩, ⟨"b.pdf", 2⟩] ⟨[], []⟩ (by decide) (by decide)⟩

/-- C5: when every file before `bad` succeeds and `bad` exceeds the 50 MiB
ceiling, `uploadFiles` fails with the size error naming `bad`, and the
call trace gains exactly the keys of the preceding files — no network call
is attempted for `bad`. -/
theorem uploadFiles_oversize_rejected (beh : String → File → NetOutcome)
    (pid : String) (ts : ℕ → ℕ) (goods : List File) (bad : File)
    (rest : List File) (st : UploadState)
    (hpid : pid ≠ "") (hgood : allOk beh pid ts goods 0 st.storage = true)
    (hbad : MAX_FILE_SIZE < bad.size) :
    uploadFiles beh (some pid) ts (goods ++ bad :: rest) st =
      (⟨insertKeys pid ts goods 0 st.storage, st.calls ++ keysFrom pid ts goods 0⟩,
       .error ("Arquivo " ++ bad.name ++ " excede o limite de 50MB")) := by
  have hne : goods ++ bad :: rest ≠ [] := by simp
  rw [uploadFiles_some beh pid ts _ st hpid hne]
  rw [uploadFilesLoop_goods beh pid ts goods (bad :: rest) 0 st [] hgood]
  rw [uploadFilesLoop, if_pos hbad]

/-- Witness for C5: a 50 MiB + 1 byte file after one good file. -/
theorem uploadFiles_oversize_rejected_witness :
    (("u" : String) ≠ "" ∧
     allOk (fun _ _ => .ok) "u" (fun i => i) [⟨"a.pdf", 1⟩] 0
       (⟨[], []⟩ : UploadState).storage = true ∧
     MAX_FILE_SIZE < (⟨"big.pdf", 52428801⟩ : File).size) ∧
    uploadFiles (fun _ _ => .ok) (some "u") (fun i => i)
        ([⟨"a.pdf", 1⟩] ++ ⟨"big.pdf", 52428801⟩ :: []) ⟨[], []⟩ =
      (⟨insertKeys "u" (fun i => i) [⟨"a.pdf", 1⟩] 0 (⟨[], []⟩ : UploadState).storage,
        (⟨[], []⟩ : UploadState).calls ++ keysFrom "u" (fun i => i) [⟨"a.pdf", 1⟩] 0⟩,
       .error ("Arquivo " ++ (⟨"big.pdf", 52428801⟩ : File).name ++
         " excede o limite de 50MB")) :=
  ⟨⟨by decide, by decide, by decide⟩,
   uploadFiles_oversize_rejected (fun _ _ => .ok) "u" (fun i => i) [⟨"a.pdf", 1⟩]
     ⟨"big.pdf", 52428801⟩ [] ⟨[], []⟩ (by decide) (by decide) (by decide)⟩

/-- The loop on a failing head file: whatever the failure reason (size,
transport fault, missing returned path, or key collision), it stops with
an error whose message carries the file's name, and the storage contents
are unchanged. -/
theorem uploadFilesLoop_cons_fail (beh : String → File → NetOutcome) (pid : String)
    (ts : ℕ → ℕ) (f : File) (rest : List File) (i : ℕ) (st : UploadState)
    (acc : List String)
    (hbad : stepOk beh st.storage (fileKey pid (ts i) f) f = false) :
    ∃ st2 pre post,
      uploadFilesLoop beh pid ts (f :: rest) i st acc =
        (st2, .error (pre ++ f.name ++ post)) ∧
      st2.storage = st.storage := by
  by_cases hsz : MAX_FILE_SIZE < f.size
  · exact ⟨st, "Arquivo ", " excede o limite de 50MB",
      by rw [uploadFilesLoop, if_pos hsz], rfl⟩
  · have hsz' : f.size ≤ MAX_FILE_SIZE := by omega
    cases hbeh : beh (fileKey pid (ts i) f) f with
    | fail m =>
      refine ⟨⟨st.storage, st.calls ++ [fileKey pid (ts i) f]⟩,
        "Erro ao fazer upload do arquivo ", ": " ++ m, ?_, rfl⟩
      rw [uploadFilesLoop, if_neg hsz]
      simp only [storageUpload, hbeh]
      rw [String.append_assoc]
    | okNoPath =>
      refine ⟨⟨st.storage, st.calls ++ [fileKey pid (ts i) f]⟩,
        "Upload não retornou um caminho válido para ", "", ?_, rfl⟩
      rw [uploadFilesLoop, if_neg hsz]
      simp only [storageUpload, hbeh]
      rw [String.append_empty]
    | ok =>
      have hcol : (st.storage.any fun e => e.1 == fileKey pid (ts i) f) = true := by
        simp only [stepOk, hbeh, hsz', decide_eq_true_eq, decide_True,
          Bool.true_and, Bool.and_eq_false_iff, Bool.not_eq_false] at hbad
        simpa using hbad
      refine ⟨⟨st.storage, st.calls ++ [fileKey pid (ts i) f]⟩,
        "Erro ao fazer upload do arquivo ", ": " ++ "The resource already exists",
        ?_, rfl⟩
      rw [uploadFilesLoop, if_neg hsz]
      simp only [storageUpload, hbeh, hcol, Bool.not_false, Bool.true_and, if_true]
      rw [String.append_assoc]

/-- C2: with every file before `bad` succeeding and `bad` failing for any
reason, `uploadFiles` raises an error whose message names `bad` instead of
returning a partial path list, and the files already uploaded stay in
storage: the final storage contents are exactly the initial ones plus the
keys of the preceding files, each of which is present. -/
theorem uploadFiles_first_failure_aborts (beh : String → File → NetOutcome)
    (pid : String) (ts : ℕ → ℕ) (goods : List File) (bad : File)
    (rest : List File) (st : UploadState)
    (hpid : pid ≠ "") (hgood : allOk beh pid ts goods 0 st.storage = true)
    (hbad : stepOk beh (insertKeys pid ts goods 0 st.storage)
        (fileKey pid (ts goods.length) bad) bad = false) :
    (∃ pre post, (uploadFiles beh (some pid) ts (goods ++ bad :: rest) st).2 =
        .error (pre ++ bad.name ++ post)) ∧
    (uploadFiles beh (some pid) ts (goods ++ bad :: rest) st).1.storage =
      insertKeys pid ts goods 0 st.storage ∧
    ∀ k ∈ keysFrom pid ts goods 0,
      k ∈ ((uploadFiles beh (some pid) ts (goods ++ bad :: rest) st).1.storage).map
        Prod.fst := by
  have hne : goods ++ bad :: rest ≠ [] := by simp
  have hrun : uploadFiles beh (some pid) ts (goods ++ bad :: rest) st =
      uploadFilesLoop beh pid ts (bad :: rest) goods.length
        ⟨insertKeys pid ts goods 0 st.storage, st.calls ++ keysFrom pid ts goods 0⟩
        (keysFrom pid ts goods 0) := by
    rw [uploadFiles_some beh pid ts _ st hpid hne]
    rw [uploadFilesLoop_goods beh pid ts goods (bad :: rest) 0 st [] hgood]
    rw [Nat.zero_add, List.nil_append]
  obtain ⟨st2, pre, post, hloop, hst2⟩ :=
    uploadFilesLoop_cons_fail beh pid ts bad rest goods.length
      ⟨insertKeys pid ts goods 0 st.storage, st.calls ++ keysFrom pid ts goods 0⟩
      (keysFrom pid ts goods 0) hbad
  refine ⟨⟨pre, post, ?_⟩, ?_, ?_⟩
  · rw [hrun, hloop]
  · rw [hrun, hloop]
    exact hst2
  · intro k hk
    rw [hrun, hloop]
    show k ∈ (st2.storage).map Prod.fst
    rw [hst2]
    exact keysFrom_mem_insertKeys pid ts goods 0 st.storage k hk

/-- Witness for C2: `a.pdf` succeeds, `b.pdf` hits a transport fault,
`c.pdf` is never reached; the error names `b.pdf` and `a.pdf`'s key stays
stored. -/
theorem uploadFiles_first_failure_aborts_witness :
    (("u" : String) ≠ "" ∧
     allOk (fun _ f => if f.name = "b.pdf" then .fail "network down" else .ok)
       "u" (fun i => i) [⟨"a.pdf", 1⟩] 0 (⟨[], []⟩ : UploadState).storage = true ∧
     stepOk (fun _ f => if f.name = "b.pdf" then .fail "network down" else .ok)
       (insertKeys "u" (fun i => i) [⟨"a.pdf", 1⟩] 0 (⟨[], []⟩ : UploadState).storage)
       (fileKey "u" ((fun i => i) ([⟨"a.pdf", 1⟩] : List File).length) ⟨"b.pdf", 2⟩)
       ⟨"b.pdf", 2⟩ = false) ∧
    ((∃ pre post,
       (uploadFiles (fun _ f => if f.name = "b.pdf" then .fail "network down" else .ok)
           (some "u") (fun i => i) ([⟨"a.pdf", 1⟩] ++ ⟨"b.pdf", 2⟩ :: [⟨"c.pdf", 3⟩])
           ⟨[], []⟩).2 =
         .error (pre ++ (⟨"b.pdf", 2⟩ : File).name ++ post)) ∧
     (uploadFiles (fun _ f => if f.name = "b.pdf" then .fail "network down" else .ok)
         (some "u") (fun i => i) ([⟨"a.pdf", 1⟩] ++ ⟨"b.pdf", 2⟩ :: [⟨"c.pdf", 3⟩])
         ⟨[], []⟩).1.storage =
       insertKeys "u" (fun i => i) [⟨"a.pdf", 1⟩] 0 (⟨[], []⟩ : UploadState).storage ∧
     ∀ k ∈ keysFrom "u" (fun i => i) [⟨"a.pdf", 1⟩] 0,
       k ∈ ((uploadFiles (fun _ f => if f.name = "b.pdf" then .fail "network down" else .ok)
           (some "u") (fun i => i) ([⟨"a.pdf", 1⟩] ++ ⟨"b.pdf", 2⟩ :: [⟨"c.pdf", 3⟩])
           ⟨[], []⟩).1.storage).map Prod.fst) :=
  ⟨⟨by decide, by decide, by decide⟩,
   uploadFiles_first_failure_aborts
     (fun _ f => if f.name = "b.pdf" then .fail "network down" else .ok)
     "u" (fun i => i) [⟨"a.pdf", 1⟩] ⟨"b.pdf", 2⟩ [⟨"c.pdf", 3⟩] ⟨[], []⟩
     (by decide) (by decide) (by decide)⟩

end Ambu3M
